import Mathlib

/-!
Verification development for the linkerd-gateway subsystem of the
AutoAgents repository (crates/linkerd-gateway).  The Rust sources are
shallowly embedded: requests, responses and the shared-store state are
explicit data, middleware stages are pure state-passing functions, and
clocks / fresh UUIDs are threaded as parameters.  Header names are stored
lower-cased, mirroring hyper's `HeaderMap` normalisation; header values and
paths are ASCII strings, so byte-level Rust operations coincide with the
character-level operations used here.
-/

namespace Gateway

/-! ## Basic string helpers (character-list level)

Rust's `str` operations used by the gateway (`starts_with`, `ends_with`,
`contains`, slicing, `split`) are modelled on `List Char`.  All paths and
header values in scope are ASCII, so byte indices and char indices agree. -/

/-- `listStartsWith s p` is true when `p` is a prefix of `s` (Rust `starts_with`). -/
def listStartsWith : List Char → List Char → Bool
  | _, [] => true
  | [], _ :: _ => false
  | c :: s, d :: p => c == d && listStartsWith s p

/-- `hasSub s p` is true when `p` occurs as a contiguous substring of `s`
(Rust `str::contains` with a literal pattern). -/
def hasSub : List Char → List Char → Bool
  | [], p => listStartsWith [] p
  | s@(_ :: rest), p => listStartsWith s p || hasSub rest p

/-- `gapTo b s`: some (possibly empty) run of non-newline characters at the
front of `s` is followed by the literal `b`.  This is the `.*b` part of a
Rust regex `a.*b` (`.` does not match `\n`). -/
def gapTo (b : List Char) : List Char → Bool
  | [] => listStartsWith [] b
  | s@(c :: rest) => listStartsWith s b || (!(c == '\n') && gapTo b rest)

/-- `gapHere a b s`: the regex `a.*b` matches starting exactly at the front of `s`. -/
def gapHere (a b : List Char) (s : List Char) : Bool :=
  listStartsWith s a && gapTo b (s.drop a.length)

/-- `gapScan a b s`: the regex `a.*b` matches somewhere in `s`
(Rust `Regex::is_match` for a pattern of the form `a.*b` with literal `a`, `b`). -/
def gapScan (a b : List Char) : List Char → Bool
  | [] => gapHere a b []
  | s@(_ :: rest) => gapHere a b s || gapScan a b rest

/-- Substring test on `String`s. -/
def strHasSub (s pat : String) : Bool := hasSub s.toList pat.toList

/-- Prefix test on `String`s (Rust `str::starts_with`). -/
def strStarts (s pre : String) : Bool := listStartsWith s.toList pre.toList

/-- Drop the first `n` characters of a string (Rust byte slicing `s[n..]` on ASCII). -/
def strDrop (s : String) (n : Nat) : String := ⟨s.toList.drop n⟩

/-- Keep all but the last `n` characters (Rust `s[..s.len()-n]` on ASCII). -/
def strDropRight (s : String) (n : Nat) : String :=
  ⟨s.toList.take (s.toList.length - n)⟩

/-- Split a character list at every occurrence of `c`; always returns at
least one (possibly empty) chunk, like Rust's `str::split`. -/
def splitOnChar (c : Char) : List Char → List (List Char)
  | [] => [[]]
  | x :: xs =>
    let r := splitOnChar c xs
    if x == c then [] :: r
    else
      match r with
      | [] => [[x]]
      | h :: t => (x :: h) :: t

/-! ## Requests, responses, headers

`Request.peerAddr` models the `std::net::SocketAddr` stored in the request
extensions (only its IP rendering is ever used by the gateway).  Header
names are stored lower-cased (hyper normalises them); `getHeader` is the
(case-insensitive in hyper, hence exact here) `HeaderMap::get`. -/

structure Request where
  method : String
  path : String
  query : Option String
  headers : List (String × String)
  peerAddr : Option String
  deriving DecidableEq, Repr

structure Response where
  status : Nat
  headers : List (String × String)
  body : String
  deriving DecidableEq, Repr

/-- First value stored under `name` (hyper `HeaderMap::get`). -/
def getHeader (hs : List (String × String)) (name : String) : Option String :=
  (hs.find? (fun h => h.1 == name)).map (·.2)

/-- `HeaderMap::contains_key`. -/
def hasHeader (hs : List (String × String)) (name : String) : Bool :=
  (getHeader hs name).isSome

/-- `HeaderMap::insert`: replace the value under `name`, or append the pair. -/
def setHeader (hs : List (String × String)) (name value : String) :
    List (String × String) :=
  if hasHeader hs name then
    hs.map (fun h => if h.1 == name then (name, value) else h)
  else hs ++ [(name, value)]

/-- Association-list lookup (for the `HashMap`s / redis keyspaces). -/
def assocFind {α : Type} (l : List (String × α)) (k : String) : Option α :=
  (l.find? (fun e => e.1 == k)).map (·.2)

/-- Association-list update-or-insert. -/
def assocSet {α : Type} (l : List (String × α)) (k : String) (v : α) :
    List (String × α) :=
  if (l.find? (fun e => e.1 == k)).isSome then
    l.map (fun e => if e.1 == k then (k, v) else e)
  else l ++ [(k, v)]

/-! ## Configuration (config.rs) -/

structure AuthConfig where
  enabled : Bool
  jwt_secret : Option String
  mcp_auth_tokens : List (String × String)
  deriving DecidableEq, Repr

def AuthConfig.default : AuthConfig :=
  { enabled := true, jwt_secret := none, mcp_auth_tokens := [] }

structure RateLimitConfig where
  enabled : Bool
  requests_per_minute : Nat
  burst_limit : Nat
  redis_url : Option String
  deriving DecidableEq, Repr

def RateLimitConfig.default : RateLimitConfig :=
  { enabled := true, requests_per_minute := 1000, burst_limit := 100,
    redis_url := some "redis://127.0.0.1:6379" }

structure CacheConfig where
  enabled : Bool
  ttl_seconds : Nat
  max_size_mb : Nat
  redis_url : Option String
  deriving DecidableEq, Repr

def CacheConfig.default : CacheConfig :=
  { enabled := true, ttl_seconds := 300, max_size_mb := 512,
    redis_url := some "redis://127.0.0.1:6379" }

structure Route where
  path : String
  upstream : String
  methods : List String
  headers : List (String × String)
  timeout_ms : Option Nat
  deriving DecidableEq, Repr

structure RoutingConfig where
  routes : List Route
  default_upstream : Option String
  deriving DecidableEq, Repr

def RoutingConfig.default : RoutingConfig :=
  { routes := [], default_upstream := some "http://localhost:8081" }

structure GatewayConfig where
  auth : AuthConfig
  rate_limit : RateLimitConfig
  cache : CacheConfig
  routing : RoutingConfig
  deriving DecidableEq, Repr

def GatewayConfig.default : GatewayConfig :=
  { auth := AuthConfig.default, rate_limit := RateLimitConfig.default,
    cache := CacheConfig.default, routing := RoutingConfig.default }

/-! ## Rate limiting (middleware/rate_limit.rs)

Local mode keeps per-client token buckets (`Instant`s as seconds : Nat).
Distributed mode keeps a per-client redis sorted set whose members ARE the
scores (`ZADD key now now`), so it is modelled as a duplicate-free
`List Int` of timestamps. -/

structure RateLimitState where
  tokens : Nat
  last_refill : Nat
  deriving DecidableEq, Repr

/-- `RateLimitMiddlewareService::get_client_key`. -/
def get_client_key (req : Request) : String :=
  match getHeader req.headers "x-user-id" with
  | some userId => "user:" ++ userId
  | none =>
    match req.peerAddr with
    | some addr => "ip:" ++ addr
    | none => "unknown"

/-- `RateLimitMiddlewareService::check_local_limit_static`: token bucket with
continuous refill of `rpm` tokens per 60 s; consumes one token on admission. -/
def check_local_limit (rpm : Nat) (now : Nat)
    (buckets : List (String × RateLimitState)) (key : String) :
    Bool × List (String × RateLimitState) :=
  let state := (assocFind buckets key).getD { tokens := rpm, last_refill := now }
  let elapsed := now - state.last_refill
  let refill_amount := elapsed * rpm / 60
  let state :=
    if refill_amount > 0 then
      { tokens := min (state.tokens + refill_amount) rpm, last_refill := now }
    else state
  if state.tokens > 0 then
    (true, assocSet buckets key { state with tokens := state.tokens - 1 })
  else
    (false, assocSet buckets key state)

/-- `RateLimitMiddlewareService::check_redis_limit_static`: `ZADD key now now`,
then `ZREMRANGEBYSCORE key 0 (now-60)`, then admit iff
`ZCOUNT key (now-60) now <= requests_per_minute`.  Returns the decision and
the sorted set as left in the store by the check. -/
def check_redis_limit (rpm : Nat) (now : Int) (zset : List Int) :
    Bool × List Int :=
  let window_start := now - 60
  let afterAdd := if zset.contains now then zset else now :: zset
  let pruned := afterAdd.filter (fun t => !(decide (0 ≤ t) && decide (t ≤ window_start)))
  let count := (pruned.filter (fun t => decide (window_start ≤ t) && decide (t ≤ now))).length
  (decide (count ≤ rpm), pruned)

/-- `RateLimitMiddlewareService::get_retry_after_static`. -/
def get_retry_after : Nat := 60

/-- The 429 response built by `RateLimitMiddlewareService::call` on rejection. -/
def rateLimitRejection (cfg : RateLimitConfig) : Response :=
  { status := 429
    headers := [("content-type", "application/json"),
                ("retry-after", toString get_retry_after),
                ("x-rate-limit-limit", toString cfg.requests_per_minute)]
    body := "\x7b\"error\": \"Rate limit exceeded\", \"retry_after\": " ++
            toString get_retry_after ++ "\x7d" }

/-- Driver: feed a sequence of arrival times (seconds) for one client key
through the local limiter, collecting the admit/reject decisions. -/
def runLocalSeq (rpm : Nat) (key : String) (times : List Nat) : List Bool :=
  (times.foldl
    (fun (acc : List Bool × List (String × RateLimitState)) t =>
      let r := check_local_limit rpm t acc.2 key
      (acc.1 ++ [r.1], r.2))
    ([], [])).1

/-- State of the local buckets after a sequence of arrivals. -/
def runLocalSeqState (rpm : Nat) (key : String) (times : List Nat) :
    List (String × RateLimitState) :=
  (times.foldl
    (fun (acc : List Bool × List (String × RateLimitState)) t =>
      let r := check_local_limit rpm t acc.2 key
      (acc.1 ++ [r.1], r.2))
    ([], [])).2

/-! ## Security enforcement (security.rs)

`SecurityEnforcer::new` compiles two fixed pattern sets.  Every blocked-path
pattern is a literal (the regex escapes `\.\./` etc. denote literal
substrings), so `Regex::is_match` is substring search.  The suspicious
patterns are compiled with `(?i)`; three are literals and two have the shape
`a.*b`, matched by `gapScan` on the lower-cased text (`.` excludes `\n`). -/

/-- The hardcoded `blocked_paths` literals of `SecurityEnforcer::new`. -/
def blockedPathPatterns : List String :=
  ["../", "..\\", "<script", "javascript:", "data:", "vbscript:",
   "onload=", "onerror="]

/-- `for regex in &self.blocked_paths { regex.is_match(path) }`. -/
def pathIsBlocked (path : String) : Bool :=
  blockedPathPatterns.any (fun p => strHasSub path p)

/-- ASCII lower-casing of one character (the `(?i)` flag on the ASCII
suspicious patterns is equivalent to comparing lower-cased text). -/
def charLower (c : Char) : Char :=
  if 'A' ≤ c ∧ c ≤ 'Z' then Char.ofNat (c.toNat + 32) else c

/-- One of the case-insensitive `suspicious_patterns` matches:
`union.*select`, `script.*alert`, `eval\(`, `document\.cookie`,
`xmlhttprequest`. -/
def suspiciousMatch (s : String) : Bool :=
  let l := s.toList.map charLower
  gapScan "union".toList "select".toList l ||
  gapScan "script".toList "alert".toList l ||
  hasSub l "eval(".toList ||
  hasSub l "document.cookie".toList ||
  hasSub l "xmlhttprequest".toList

inductive SecurityError where
  | BlockedIP (ip : String)
  | MaliciousPath (path : String)
  | SuspiciousContent (content : String)
  | RequestTooLarge (size : Nat)
  | UnauthorizedOrigin (origin : String)
  deriving DecidableEq, Repr

/-- The request-independent, administratively mutable part of
`SecurityEnforcer` (`blocked_ips`, `allowed_origins`, `max_request_size`);
the two pattern sets are the fixed ones above. -/
structure SecurityPolicy where
  blocked_ips : List String
  allowed_origins : List String
  max_request_size : Nat
  deriving DecidableEq, Repr

/-- The policy state of a freshly constructed `SecurityEnforcer::new`:
no blocked IPs, no origin restriction, 10 MB max request size. -/
def SecurityPolicy.fresh : SecurityPolicy :=
  { blocked_ips := [], allowed_origins := [], max_request_size := 10 * 1024 * 1024 }

/-- `SecurityEnforcer::get_client_ip`: first hop of `X-Forwarded-For`
(trimmed) if present, else the peer address. -/
def getClientIp (req : Request) : Option String :=
  match getHeader req.headers "x-forwarded-for" with
  | some fwd => some (((fwd.splitOn ",").headD "").trim)
  | none => req.peerAddr

/-- Check (6): `Origin` header against the allowed origins when non-empty. -/
def check_origin (pol : SecurityPolicy) (req : Request) :
    Except SecurityError Unit :=
  match getHeader req.headers "origin" with
  | some origin =>
    if !pol.allowed_origins.isEmpty && !pol.allowed_origins.contains origin then
      Except.error (SecurityError.UnauthorizedOrigin origin)
    else Except.ok ()
  | none => Except.ok ()

/-- Check (5): parsed `Content-Length` against `max_request_size`. -/
def check_size (pol : SecurityPolicy) (req : Request) :
    Except SecurityError Unit :=
  match getHeader req.headers "content-length" with
  | some lenStr =>
    match lenStr.toNat? with
    | some len =>
      if len > pol.max_request_size then
        Except.error (SecurityError.RequestTooLarge len)
      else check_origin pol req
    | none => check_origin pol req
  | none => check_origin pol req

/-- Check (4): every header value against the suspicious patterns; the first
matching header's value is reported. -/
def check_headers (pol : SecurityPolicy) (req : Request) :
    Except SecurityError Unit :=
  match req.headers.find? (fun h => suspiciousMatch h.2) with
  | some h => Except.error (SecurityError.SuspiciousContent h.2)
  | none => check_size pol req

/-- Check (3): the query string against the suspicious patterns. -/
def check_query (pol : SecurityPolicy) (req : Request) :
    Except SecurityError Unit :=
  match req.query with
  | some q =>
    if suspiciousMatch q then Except.error (SecurityError.SuspiciousContent q)
    else check_headers pol req
  | none => check_headers pol req

/-- Check (2): the path against the blocked-path patterns. -/
def check_path (pol : SecurityPolicy) (req : Request) :
    Except SecurityError Unit :=
  if pathIsBlocked req.path then
    Except.error (SecurityError.MaliciousPath req.path)
  else check_query pol req

/-- `SecurityEnforcer::check_request`: the six checks in source order,
returning the first violation (the staged helpers realise the early
returns of the Rust function). -/
def check_request (pol : SecurityPolicy) (req : Request) :
    Except SecurityError Unit :=
  match getClientIp req with
  | some clientIp =>
    if pol.blocked_ips.contains clientIp then
      Except.error (SecurityError.BlockedIP clientIp)
    else check_path pol req
  | none => check_path pol req

/-- Status chosen by `SecurityMiddleware::call` for each violation. -/
def securityStatus : SecurityError → Nat
  | SecurityError.BlockedIP _ => 403
  | SecurityError.MaliciousPath _ => 400
  | SecurityError.SuspiciousContent _ => 400
  | SecurityError.RequestTooLarge _ => 413
  | SecurityError.UnauthorizedOrigin _ => 403

/-- Message chosen by `SecurityMiddleware::call` for each violation. -/
def securityMessage : SecurityError → String
  | SecurityError.BlockedIP _ => "Access denied"
  | SecurityError.MaliciousPath _ => "Invalid request path"
  | SecurityError.SuspiciousContent _ => "Invalid request content"
  | SecurityError.RequestTooLarge _ => "Request too large"
  | SecurityError.UnauthorizedOrigin _ => "Unauthorized origin"

/-- The error response built by `SecurityMiddleware::call`. -/
def securityRejection (e : SecurityError) : Response :=
  { status := securityStatus e
    headers := [("content-type", "application/json")]
    body := "\x7b\"error\": \"" ++ toString (securityStatus e) ++
            "\", \"message\": \"" ++ securityMessage e ++ "\"\x7d" }

/-! Independent per-check violation computation, used to state that
`check_request` evaluates the checks in the fixed order and stops at the
first violation: each potential violation is computed without any
short-circuiting, and `check_request` must return the head of their
concatenation in check order. -/

def ipViolation (pol : SecurityPolicy) (req : Request) : Option SecurityError :=
  match getClientIp req with
  | some ip => if pol.blocked_ips.contains ip then some (SecurityError.BlockedIP ip) else none
  | none => none

def pathViolation (req : Request) : Option SecurityError :=
  if pathIsBlocked req.path then some (SecurityError.MaliciousPath req.path) else none

def queryViolation (req : Request) : Option SecurityError :=
  match req.query with
  | some q => if suspiciousMatch q then some (SecurityError.SuspiciousContent q) else none
  | none => none

def headerViolations (req : Request) : List SecurityError :=
  req.headers.filterMap
    (fun h => if suspiciousMatch h.2 then some (SecurityError.SuspiciousContent h.2) else none)

def sizeViolation (pol : SecurityPolicy) (req : Request) : Option SecurityError :=
  match getHeader req.headers "content-length" with
  | some lenStr =>
    match lenStr.toNat? with
    | some len => if len > pol.max_request_size then some (SecurityError.RequestTooLarge len) else none
    | none => none
  | none => none

def originViolation (pol : SecurityPolicy) (req : Request) : Option SecurityError :=
  match getHeader req.headers "origin" with
  | some origin =>
    if !pol.allowed_origins.isEmpty && !pol.allowed_origins.contains origin then
      some (SecurityError.UnauthorizedOrigin origin)
    else none
  | none => none

/-- All violations of a request, listed in the fixed check order
(1) IP, (2) path, (3) query, (4) header values, (5) size, (6) origin. -/
def orderedViolations (pol : SecurityPolicy) (req : Request) : List SecurityError :=
  (ipViolation pol req).toList ++
    ((pathViolation req).toList ++
      ((queryViolation req).toList ++
        (headerViolations req ++
          ((sizeViolation pol req).toList ++ (originViolation pol req).toList))))

/-- Short-circuiting over a violation list: fail with the first entry. -/
def firstViolation (l : List SecurityError) : Except SecurityError Unit :=
  match l with
  | [] => Except.ok ()
  | e :: _ => Except.error e

theorem check_origin_spec (pol : SecurityPolicy) (req : Request) :
    check_origin pol req = firstViolation (originViolation pol req).toList := by
  unfold check_origin originViolation
  cases getHeader req.headers "origin" with
  | none => rfl
  | some o =>
    dsimp only
    by_cases hc : (!pol.allowed_origins.isEmpty && !pol.allowed_origins.contains o) = true
    · rw [if_pos hc, if_pos hc]; rfl
    · rw [if_neg hc, if_neg hc]; rfl

theorem check_size_spec (pol : SecurityPolicy) (req : Request) :
    check_size pol req =
      firstViolation ((sizeViolation pol req).toList ++ (originViolation pol req).toList) := by
  unfold check_size sizeViolation
  cases getHeader req.headers "content-length" with
  | none => exact check_origin_spec pol req
  | some lenStr =>
    dsimp only
    cases lenStr.toNat? with
    | none => exact check_origin_spec pol req
    | some len =>
      dsimp only
      by_cases hl : len > pol.max_request_size
      · rw [if_pos hl, if_pos hl]; rfl
      · rw [if_neg hl, if_neg hl]; exact check_origin_spec pol req

theorem find?_filterMap_susp (l : List (String × String)) (rest : List SecurityError) :
    (match l.find? (fun h => suspiciousMatch h.2) with
     | some h => Except.error (SecurityError.SuspiciousContent h.2)
     | none => firstViolation rest) =
    firstViolation
      ((l.filterMap
        (fun h => if suspiciousMatch h.2 then some (SecurityError.SuspiciousContent h.2) else none)) ++ rest) := by
  induction l with
  | nil => simp
  | cons h t ih =>
    cases hs : suspiciousMatch h.2 with
    | true => simp [List.find?, List.filterMap_cons, hs, firstViolation]
    | false => simpa [List.find?, List.filterMap_cons, hs] using ih

theorem check_headers_spec (pol : SecurityPolicy) (req : Request) :
    check_headers pol req =
      firstViolation (headerViolations req ++
        ((sizeViolation pol req).toList ++ (originViolation pol req).toList)) := by
  have h := find?_filterMap_susp req.headers
    ((sizeViolation pol req).toList ++ (originViolation pol req).toList)
  unfold check_headers headerViolations
  rw [← h, check_size_spec]

theorem check_query_spec (pol : SecurityPolicy) (req : Request) :
    check_query pol req =
      firstViolation ((queryViolation req).toList ++
        (headerViolations req ++
          ((sizeViolation pol req).toList ++ (originViolation pol req).toList))) := by
  unfold check_query queryViolation
  cases req.query with
  | none => exact check_headers_spec pol req
  | some q =>
    dsimp only
    by_cases hq : suspiciousMatch q = true
    · rw [if_pos hq, if_pos hq]; rfl
    · rw [if_neg hq, if_neg hq]; exact check_headers_spec pol req

theorem check_path_spec (pol : SecurityPolicy) (req : Request) :
    check_path pol req =
      firstViolation ((pathViolation req).toList ++
        ((queryViolation req).toList ++
          (headerViolations req ++
            ((sizeViolation pol req).toList ++ (originViolation pol req).toList)))) := by
  unfold check_path pathViolation
  by_cases hp : pathIsBlocked req.path = true
  · rw [if_pos hp, if_pos hp]; rfl
  · rw [if_neg hp, if_neg hp]; exact check_query_spec pol req

theorem check_request_spec (pol : SecurityPolicy) (req : Request) :
    check_request pol req = firstViolation (orderedViolations pol req) := by
  unfold check_request orderedViolations ipViolation
  cases getClientIp req with
  | none => exact check_path_spec pol req
  | some ip =>
    dsimp only
    by_cases hb : pol.blocked_ips.contains ip = true
    · rw [if_pos hb, if_pos hb]; rfl
    · rw [if_neg hb, if_neg hb]; exact check_path_spec pol req

/-- Claim C4: for every request, `SecurityEnforcer::check_request` evaluates
its checks in the fixed order (1) source IP vs blocklist, (2) path vs
blocked-path patterns, (3) query vs suspicious patterns, (4) every header
value vs suspicious patterns, (5) Content-Length vs max request size,
(6) Origin vs allowed origins when non-empty; evaluation stops at the first
violation (the result is the head of the order-concatenated violation
lists), and each violation maps to its status: 403 for blocked IP or
unauthorized origin, 400 for malicious path or suspicious content, 413 for
oversize (as realised by `SecurityMiddleware::call`). -/
theorem c4_security_checks_ordered (pol : SecurityPolicy) (req : Request) :
    check_request pol req = firstViolation (orderedViolations pol req) ∧
    (∀ ip, securityStatus (SecurityError.BlockedIP ip) = 403) ∧
    (∀ p, securityStatus (SecurityError.MaliciousPath p) = 400) ∧
    (∀ c, securityStatus (SecurityError.SuspiciousContent c) = 400) ∧
    (∀ n, securityStatus (SecurityError.RequestTooLarge n) = 413) ∧
    (∀ o, securityStatus (SecurityError.UnauthorizedOrigin o) = 403) ∧
    (∀ e, (securityRejection e).status = securityStatus e) :=
  ⟨check_request_spec pol req, fun _ => rfl, fun _ => rfl, fun _ => rfl,
   fun _ => rfl, fun _ => rfl, fun _ => rfl⟩

/-! ## Routing (routing.rs) and upstream dispatch (gateway.rs) -/

/-- Rust `route.path.ends_with("/*")`. -/
def endsWithSlashStar (s : String) : Bool :=
  match s.toList.reverse with
  | '*' :: '/' :: _ => true
  | _ => false

/-- `route_part.starts_with('\x7b') && route_part.ends_with('\x7d')`. -/
def partIsParam (p : List Char) : Bool :=
  (match p with
   | c :: _ => c == '\x7b'
   | [] => false) &&
  (match p.getLast? with
   | some c => c == '\x7d'
   | none => false)

/-- Pointwise comparison of route-pattern segments with path segments:
equal length, each segment a parameter or byte-equal
(`Router::matches_parameterized_route`'s length check plus zip loop). -/
def segsMatch : List (List Char) → List (List Char) → Bool
  | [], [] => true
  | rp :: rs, pp :: ps => (partIsParam rp || rp == pp) && segsMatch rs ps
  | _, _ => false

/-- `Router::matches_parameterized_route`. -/
def matches_parameterized_route (route_pattern path : String) : Bool :=
  segsMatch (splitOnChar '/' route_pattern.toList) (splitOnChar '/' path.toList)

/-- `Router::matches_route`: method filter, then exact, wildcard-prefix and
parameterized path matching, in source order. -/
def matches_route (route : Route) (path method : String) : Bool :=
  if !route.methods.isEmpty && !route.methods.contains method then false
  else if route.path == path then true
  else if endsWithSlashStar route.path then strStarts path (strDropRight route.path 2)
  else if route.path.toList.contains '\x7b' && route.path.toList.contains '\x7d' then
    matches_parameterized_route route.path path
  else false

/-- The `for route in &self.config.routes` loop of `Router::find_route`. -/
def findMatching : List Route → String → String → Option Route
  | [], _, _ => none
  | r :: rest, path, method =>
    if matches_route r path method then some r
    else findMatching rest path method

/-- The synthetic default route built by `Router::find_route` when no
configured route matches and a default upstream is set. -/
def defaultRouteFor (d : String) : Route :=
  { path := "/*", upstream := d,
    methods := ["GET", "POST", "PUT", "DELETE"],
    headers := [], timeout_ms := some 30000 }

/-- `Router::find_route`. -/
def find_route (cfg : RoutingConfig) (path method : String) : Option Route :=
  match findMatching cfg.routes path method with
  | some r => some r
  | none => cfg.default_upstream.map defaultRouteFor

/-- Spec-side path matching, following the specification's classification of
patterns: a pattern ending in `/*` matches by prefix, a braced pattern by
parameterized segments, and any other pattern exactly. -/
def specPathMatches (rp p : String) : Bool :=
  if endsWithSlashStar rp then strStarts p (strDropRight rp 2)
  else if rp.toList.contains '\x7b' && rp.toList.contains '\x7d' then
    matches_parameterized_route rp p
  else rp == p

/-- Spec-side route matching: method set empty or containing the method,
and the path matching per the pattern's classification. -/
def specRouteMatches (r : Route) (path method : String) : Bool :=
  (r.methods.isEmpty || r.methods.contains method) && specPathMatches r.path path

theorem listStartsWith_take (l : List Char) (k : Nat) :
    listStartsWith l (l.take k) = true := by
  induction l generalizing k with
  | nil => cases k <;> rfl
  | cons c t ih =>
    cases k with
    | zero => rfl
    | succ k => simp [List.take, listStartsWith, ih]

theorem strStarts_dropRight (s : String) (n : Nat) :
    strStarts s (strDropRight s n) = true := by
  unfold strStarts strDropRight
  exact listStartsWith_take s.toList (s.toList.length - n)

theorem segsMatch_refl (segs : List (List Char)) : segsMatch segs segs = true := by
  induction segs with
  | nil => rfl
  | cons s rest ih => simp [segsMatch, ih]

theorem matches_parameterized_refl (p : String) :
    matches_parameterized_route p p = true :=
  segsMatch_refl _

/-- The source's exact-first matching algorithm agrees with the
classification-based matching of the specification. -/
theorem matches_route_eq_spec (r : Route) (path method : String) :
    matches_route r path method = specRouteMatches r path method := by
  unfold matches_route specRouteMatches specPathMatches
  by_cases hm : (!r.methods.isEmpty && !r.methods.contains method) = true
  · rw [if_pos hm]
    have h1 : r.methods.isEmpty = false := by
      cases he : r.methods.isEmpty <;> simp_all
    have h2 : r.methods.contains method = false := by
      cases hc : r.methods.contains method <;> simp_all
    rw [h1, h2]
    rfl
  · rw [if_neg hm]
    have hmOk : (r.methods.isEmpty || r.methods.contains method) = true := by
      cases he : r.methods.isEmpty <;> cases hc : r.methods.contains method <;> simp_all
    rw [hmOk, Bool.true_and]
    by_cases hEq : (r.path == path) = true
    · rw [if_pos hEq]
      have hpe : r.path = path := eq_of_beq hEq
      subst hpe
      by_cases hw : endsWithSlashStar r.path = true
      · rw [if_pos hw]
        exact (strStarts_dropRight r.path 2).symm
      · rw [if_neg hw]
        by_cases hbr : (r.path.toList.contains '\x7b' && r.path.toList.contains '\x7d') = true
        · rw [if_pos hbr]
          exact (matches_parameterized_refl r.path).symm
        · rw [if_neg hbr]
          simp
    · rw [if_neg hEq]
      by_cases hw : endsWithSlashStar r.path = true
      · rw [if_pos hw, if_pos hw]
      · rw [if_neg hw, if_neg hw]
        by_cases hbr : (r.path.toList.contains '\x7b' && r.path.toList.contains '\x7d') = true
        · rw [if_pos hbr, if_pos hbr]
        · rw [if_neg hbr, if_neg hbr]
          simp [hEq]

theorem findMatching_eq_find? (routes : List Route) (path method : String) :
    findMatching routes path method =
      routes.find? (fun r => matches_route r path method) := by
  induction routes with
  | nil => rfl
  | cons r rest ih =>
    unfold findMatching
    by_cases h : matches_route r path method = true
    · rw [if_pos h]
      simp [List.find?_cons, h]
    · have h' : matches_route r path method = false := by simpa using h
      rw [if_neg h, ih]
      simp [List.find?_cons, h']

/-- `str::replace(s, "/*", rep)`: left-to-right replacement of every
occurrence of the two-character pattern. -/
def replaceSlashStar (rep : List Char) : List Char → List Char
  | [] => []
  | '/' :: '*' :: rest => rep ++ replaceSlashStar rep rest
  | c :: rest => c :: replaceSlashStar rep rest

/-- `GatewayService::build_upstream_uri`: upstream base URL, plus the
request's query string, with `/*` replaced by the unmatched path remainder
for wildcard routes.  `Uri::try_from` is modelled as succeeding (no claim
concerns the malformed-URI 502 path). -/
def build_upstream_uri (route : Route) (req : Request) : String :=
  let upstream_url :=
    route.upstream ++ (match req.query with
                       | some q => "?" ++ q
                       | none => "")
  if endsWithSlashStar route.path then
    let remaining_path := strDrop req.path (route.path.length - 1)
    ⟨replaceSlashStar remaining_path.toList upstream_url.toList⟩
  else upstream_url

/-- `GatewayService::add_upstream_headers` (the request URI's host is absent
for origin-form request targets, so `X-Forwarded-Host` is "unknown"). -/
def add_upstream_headers (req : Request) (route : Route) (uuid : String) : Request :=
  let hs := route.headers.foldl (fun hs kv => setHeader hs kv.1 kv.2) req.headers
  let hs := setHeader hs "x-gateway" "Linkerd-AutoAgents"
  let hs := setHeader hs "x-forwarded-host" "unknown"
  let hs := setHeader hs "x-forwarded-proto" "http"
  let hs := setHeader hs "x-request-id" uuid
  { req with headers := hs }

/-- `GatewayService::add_gateway_headers`. -/
def add_gateway_headers (resp : Response) : Response :=
  { resp with
    headers := setHeader (setHeader resp.headers "x-gateway-version" "1.0.0")
                 "x-powered-by" "AutoAgents-Gateway" }

/-- `GatewayService::create_error_response` (rendered as compact JSON;
`ts` is the RFC3339 timestamp). -/
def create_error_response (status : Nat) (message ts : String) : Response :=
  { status := status
    headers := [("content-type", "application/json")]
    body := "\x7b\"error\":\x7b\"code\":" ++ toString status ++
            ",\"message\":\"" ++ message ++ "\",\"timestamp\":\"" ++ ts ++
            "\"\x7d\x7d" }

/-- `usize` arithmetic is modulo `2^64`. -/
def usizeLimit : Nat := 2 ^ 64

/-- `Router::increment_connection` (`AtomicUsize::fetch_add`, wrapping). -/
def increment_connection (counts : List (String × Nat)) (upstream : String) :
    List (String × Nat) :=
  match assocFind counts upstream with
  | some c => assocSet counts upstream ((c + 1) % usizeLimit)
  | none => counts

/-- `Router::decrement_connection` (`AtomicUsize::fetch_sub`, which wraps to
`usize::MAX` on a zero counter). -/
def decrement_connection (counts : List (String × Nat)) (upstream : String) :
    List (String × Nat) :=
  match assocFind counts upstream with
  | some c => assocSet counts upstream (if c = 0 then usizeLimit - 1 else c - 1)
  | none => counts

/-- `Router::get_connection_count`. -/
def get_connection_count (counts : List (String × Nat)) (upstream : String) : Nat :=
  (assocFind counts upstream).getD 0

/-- `GatewayService::route_request`.  `upstr` is the hyper client (the
upstream fetch); `none` models a connect failure (the 502 arm).  The
router's per-upstream connection counters (`counts`) are threaded through
exactly as the source leaves them. -/
def route_request (cfg : RoutingConfig) (upstr : Request → Option Response)
    (uuid ts : String) (counts : List (String × Nat)) (req : Request) :
    Response × List (String × Nat) :=
  match find_route cfg req.path req.method with
  | none => (create_error_response 404 "Route not found" ts, counts)
  | some route =>
    let upstream_uri := build_upstream_uri route req
    let req := add_upstream_headers { req with path := upstream_uri } route uuid
    match upstr req with
    | some response => (add_gateway_headers response, counts)
    | none => (create_error_response 502 "Upstream service unavailable" ts, counts)

/-- Claim C6: `find_route` returns the first configured route (table order)
that matches — method set empty or containing the method, path matching per
its pattern's classification (exact, wildcard prefix, or parameterized
segments); when no configured route matches, a set default upstream yields
the same synthetic route whatever the method; with no default the result is
`none` and `route_request` answers 404. -/
theorem c6_find_route_first_match (cfg : RoutingConfig) (path method : String) :
    (find_route cfg path method =
      match cfg.routes.find? (fun r => specRouteMatches r path method) with
      | some r => some r
      | none => cfg.default_upstream.map defaultRouteFor) ∧
    (∀ d, cfg.routes.find? (fun r => specRouteMatches r path method) = none →
      cfg.default_upstream = some d →
      find_route cfg path method = some (defaultRouteFor d)) ∧
    (∀ (upstr : Request → Option Response) (uuid ts : String)
      (counts : List (String × Nat)) (req : Request),
      req.path = path → req.method = method →
      find_route cfg path method = none →
      (route_request cfg upstr uuid ts counts req).1.status = 404) := by
  have hpred : (fun r => matches_route r path method) =
      (fun r => specRouteMatches r path method) :=
    funext (fun r => matches_route_eq_spec r path method)
  have hmain : find_route cfg path method =
      match cfg.routes.find? (fun r => specRouteMatches r path method) with
      | some r => some r
      | none => cfg.default_upstream.map defaultRouteFor := by
    unfold find_route
    rw [findMatching_eq_find?, hpred]
  refine ⟨hmain, ?_, ?_⟩
  · intro d hnone hdef
    rw [hmain, hnone, hdef]
    rfl
  · intro upstr uuid ts counts req hpath hmethod hnone
    unfold route_request
    rw [hpath, hmethod, hnone]
    rfl

/-- Witness for C6: with an empty route table, a set default upstream is
returned even for `PATCH` (a method outside the synthetic route's literal
method list), and with no default the dispatcher answers 404. -/
theorem c6_find_route_first_match_witness :
    find_route { routes := [], default_upstream := some "http://up" } "/x" "PATCH" =
      some (defaultRouteFor "http://up") ∧
    (route_request { routes := [], default_upstream := none } (fun _ => none)
      "u" "ts" [] { method := "GET", path := "/nomatch", query := none,
                    headers := [], peerAddr := none }).1.status = 404 :=
  ⟨(c6_find_route_first_match { routes := [], default_upstream := some "http://up" }
      "/x" "PATCH").2.1 "http://up" (by decide) rfl,
   (c6_find_route_first_match { routes := [], default_upstream := none }
      "/nomatch" "GET").2.2 (fun _ => none) "u" "ts" []
      { method := "GET", path := "/nomatch", query := none,
        headers := [], peerAddr := none } rfl rfl (by decide)⟩

/-! ## Authentication (middleware/auth.rs)

`AuthConfig::requires_auth` in the source returns `true` exactly on the
PUBLIC paths (despite its name), and the call site skips authentication
when it returns `true`; the composition therefore bypasses auth on public
paths and demands a token elsewhere. -/

structure Claims where
  sub : String
  exp : Nat
  roles : List String
  deriving DecidableEq, Repr

def Claims.default : Claims := { sub := "", exp := 0, roles := [] }

inductive AuthError where
  | InvalidToken
  | TokenExpired
  | InvalidSignature
  deriving DecidableEq, Repr

/-- `AuthConfig::requires_auth`: true iff the path starts with one of the
public paths (health check, metrics, auth endpoints). -/
def requires_auth (path : String) : Bool :=
  ["/health", "/metrics", "/api/v1/auth"].any (fun p => strStarts path p)

/-- `AuthConfig::validate_jwt`: the TODO stub accepts any non-empty token
and fabricates fixed claims. -/
def validate_jwt (cfg : AuthConfig) (token : String) : Except AuthError Claims :=
  if !cfg.enabled then Except.ok Claims.default
  else if token == "" then Except.error AuthError.InvalidToken
  else Except.ok { sub := "user", exp := 0, roles := ["user"] }

/-- `AuthConfig::validate_mcp_token`: exact match against the per-service
expected-token map. -/
def validate_mcp_token (cfg : AuthConfig) (token service : String) : Bool :=
  match assocFind cfg.mcp_auth_tokens service with
  | some expected => token == expected
  | none => false

/-- `AuthMiddleware::extract_bearer_token`. -/
def extract_bearer_token (hs : List (String × String)) : Option String :=
  match getHeader hs "authorization" with
  | some v => if strStarts v "Bearer " then some (strDrop v 7) else none
  | none => none

/-- Outcome of one middleware stage: pass the (possibly modified) request on,
or short-circuit with a terminal response. -/
inductive StageOut where
  | forward (req : Request)
  | respond (resp : Response)
  deriving DecidableEq, Repr

/-- The 401 response of `AuthMiddlewareService::call`. -/
def authRejection : Response :=
  { status := 401
    headers := [("content-type", "application/json")]
    body := "\x7b\"error\": \"Authentication required\"\x7d" }

/-- The JWT arm of `AuthMiddlewareService::call`: extract a bearer token,
validate it, attach `X-User-ID` / `X-User-Roles` claims on success. -/
def authJwtArm (cfg : AuthConfig) (req : Request) : StageOut :=
  match extract_bearer_token req.headers with
  | some token =>
    match validate_jwt cfg token with
    | Except.ok claims =>
      StageOut.forward
        { req with
          headers := setHeader (setHeader req.headers "x-user-id" claims.sub)
                       "x-user-roles" (String.intercalate "," claims.roles) }
    | Except.error _ => StageOut.respond authRejection
  | none => StageOut.respond authRejection

/-- `AuthMiddlewareService::call`: public paths (and disabled auth) pass
through untouched; otherwise an `X-MCP-Token` is tried against the service
map, then a bearer JWT; failure of all yields 401 with no claims attached. -/
def authCheck (cfg : AuthConfig) (req : Request) : StageOut :=
  if !cfg.enabled || requires_auth req.path then StageOut.forward req
  else
    match getHeader req.headers "x-mcp-token" with
    | some token =>
      let service := (getHeader req.headers "x-mcp-service").getD "default"
      if validate_mcp_token cfg token service then StageOut.forward req
      else authJwtArm cfg req
    | none => authJwtArm cfg req

/-! ## Response caching (middleware/cache.rs)

The cache-key string built by `generate_cache_key` is hashed with
`DefaultHasher` in the source only to shorten it; the hash is a
deterministic pure function of the string, so the store is modelled as
keyed by the composed string itself (collision-free hashing). -/

structure CacheEntry where
  body : String
  headers : List (String × String)
  content_type : String
  etag : String
  timestamp : Nat
  deriving DecidableEq, Repr

/-- `CacheMiddleware::generate_cache_key`: method, path, query and the
relevant headers (`Accept`, `Accept-Language`, `Authorization`; looked up
case-insensitively by hyper, hence by their lower-cased names here, while
the key text keeps the source's capitalised literals). -/
def generate_cache_key (req : Request) : String :=
  let key := "cache:" ++ req.method ++ ":" ++ req.path
  let key := match req.query with
             | some q => key ++ "?" ++ q
             | none => key
  let key := match getHeader req.headers "accept" with
             | some v => key ++ ":Accept:" ++ v
             | none => key
  let key := match getHeader req.headers "accept-language" with
             | some v => key ++ ":Accept-Language:" ++ v
             | none => key
  match getHeader req.headers "authorization" with
  | some v => key ++ ":Authorization:" ++ v
  | none => key

/-- The cache key a request would get if `Authorization` were not among the
relevant headers (used to state that keys of requests actually reaching the
cache never depend on it). -/
def generate_cache_key_no_auth (req : Request) : String :=
  let key := "cache:" ++ req.method ++ ":" ++ req.path
  let key := match req.query with
             | some q => key ++ "?" ++ q
             | none => key
  let key := match getHeader req.headers "accept" with
             | some v => key ++ ":Accept:" ++ v
             | none => key
  match getHeader req.headers "accept-language" with
  | some v => key ++ ":Accept-Language:" ++ v
  | none => key

/-- `CacheMiddlewareService::is_cacheable`: GET only, no `Authorization`
header, and no `Cache-Control` containing `no-cache`. -/
def is_cacheable (req : Request) : Bool :=
  if !(req.method == "GET") then false
  else if hasHeader req.headers "authorization" then false
  else
    match getHeader req.headers "cache-control" with
    | some v => !strHasSub v "no-cache"
    | none => true

/-- `CacheMiddlewareService::is_response_cacheable`: 2xx only, and no
`Cache-Control` containing `no-cache` or `private`. -/
def is_response_cacheable (resp : Response) : Bool :=
  if !(200 ≤ resp.status && resp.status < 300) then false
  else
    match getHeader resp.headers "cache-control" with
    | some v => !(strHasSub v "no-cache" || strHasSub v "private")
    | none => true

/-- `CacheMiddlewareService::get_from_cache_static`: a stored entry is
served only while `now - timestamp < ttl_seconds` (lazy expiry); absent
redis or disabled cache yield `none`. -/
def get_from_cache (cfg : CacheConfig) (now : Nat)
    (store : List (String × CacheEntry)) (key : String) : Option CacheEntry :=
  if !cfg.enabled then none
  else if cfg.redis_url.isSome then
    match assocFind store key with
    | some entry => if now - entry.timestamp < cfg.ttl_seconds then some entry else none
    | none => none
  else none

/-- `CacheMiddlewareService::store_in_cache_static`: the stored entry takes
the response's headers and content type, the body bytes, the current
instant, and a FRESH etag `"uuid"` (the quotes are part of the stored
string). -/
def store_in_cache (cfg : CacheConfig) (now : Nat) (uuid key : String)
    (resp : Response) (body : String) (store : List (String × CacheEntry)) :
    List (String × CacheEntry) :=
  if !cfg.enabled then store
  else if cfg.redis_url.isSome then
    assocSet store key
      { body := body
        headers := resp.headers
        content_type := (getHeader resp.headers "content-type").getD "application/octet-stream"
        etag := "\"" ++ uuid ++ "\""
        timestamp := now }
  else store

/-- `CacheMiddlewareService::create_response_from_cache_static`: 200 with
the entry's content type, its stored etag, the cached headers, and the
cached body. -/
def create_response_from_cache (entry : CacheEntry) : Response :=
  { status := 200
    headers := [("content-type", entry.content_type), ("etag", entry.etag)] ++ entry.headers
    body := entry.body }

/-- Shared mutable state of one gateway instance plus its external store:
local token buckets, per-client redis rate windows, the redis cache, and
the router's per-upstream connection counters. -/
structure GatewayState where
  localBuckets : List (String × RateLimitState)
  redisRate : List (String × List Int)
  cacheStore : List (String × CacheEntry)
  connCounts : List (String × Nat)
  deriving DecidableEq, Repr

def GatewayState.empty : GatewayState :=
  { localBuckets := [], redisRate := [], cacheStore := [], connCounts := [] }

/-- `CacheMiddlewareService::call`: skip for non-cacheable requests; try the
`If-None-Match` conditional (comparing the REQUEST header against the
stored etag re-wrapped in quotes, as the source does); then an
unconditional lookup; on a miss, forward and store cacheable responses
under a fresh etag.  The reconstructed response after a store is
byte-identical to the upstream one. -/
def cacheStage (cfg : CacheConfig) (now : Nat) (uuid : String)
    (st : GatewayState) (req : Request)
    (inner : GatewayState → Request → Response × GatewayState) :
    Response × GatewayState :=
  if !cfg.enabled || !is_cacheable req then inner st req
  else
    let cache_key := generate_cache_key req
    let conditional :=
      match getHeader req.headers "if-none-match" with
      | some etag =>
        match get_from_cache cfg now st.cacheStore cache_key with
        | some entry => if ("\"" ++ entry.etag ++ "\"") == etag then some etag else none
        | none => none
      | none => none
    match conditional with
    | some etag =>
      ({ status := 304, headers := [("etag", etag)], body := "" }, st)
    | none =>
      match get_from_cache cfg now st.cacheStore cache_key with
      | some entry => (create_response_from_cache entry, st)
      | none =>
        let res := inner st req
        let response := res.1
        let st' := res.2
        if is_response_cacheable response then
          (response,
           { st' with cacheStore :=
               store_in_cache cfg now uuid cache_key response response.body st'.cacheStore })
        else (response, st')

/-- `RateLimitMiddlewareService::call`: disabled passes through; a redis
client (present iff `redis_url` is set) selects the distributed check,
otherwise the local bucket; rejection answers 429 with `Retry-After`. -/
def rateLimitStage (cfg : RateLimitConfig) (now : Nat) (st : GatewayState)
    (req : Request) : StageOut × GatewayState :=
  if !cfg.enabled then (StageOut.forward req, st)
  else
    let client_key := get_client_key req
    if cfg.redis_url.isSome then
      let zset := (assocFind st.redisRate client_key).getD []
      let res := check_redis_limit cfg.requests_per_minute (Int.ofNat now) zset
      let st' := { st with redisRate := assocSet st.redisRate client_key res.2 }
      if res.1 then (StageOut.forward req, st')
      else (StageOut.respond (rateLimitRejection cfg), st')
    else
      let res := check_local_limit cfg.requests_per_minute now st.localBuckets client_key
      let st' := { st with localBuckets := res.2 }
      if res.1 then (StageOut.forward req, st')
      else (StageOut.respond (rateLimitRejection cfg), st')

/-- The middleware stack composed by `LinkerdGateway::serve`:
Auth → RateLimit → Cache → GatewayService (routing + upstream fetch).
No security middleware is layered in.  `upstr` is the upstream fetch,
`now`/`uuid`/`ts` thread the clock, the fresh UUID and the RFC3339
timestamp. -/
def runPipeline (cfg : GatewayConfig) (upstr : Request → Option Response)
    (now : Nat) (uuid ts : String) (st : GatewayState) (req : Request) :
    Response × GatewayState :=
  match authCheck cfg.auth req with
  | StageOut.respond resp => (resp, st)
  | StageOut.forward req1 =>
    let rl := rateLimitStage cfg.rate_limit now st req1
    match rl.1 with
    | StageOut.respond resp => (resp, rl.2)
    | StageOut.forward req2 =>
      cacheStage cfg.cache now uuid rl.2 req2
        (fun st' r =>
          let res := route_request cfg.routing upstr uuid ts st'.connCounts r
          (res.1, { st' with connCounts := res.2 }))

/-! ## Concrete fixtures used by the claim theorems -/

/-- An upstream that answers 200 `ok` to everything. -/
def upstrOk : Request → Option Response :=
  fun _ => some { status := 200, headers := [], body := "ok" }

/-- A directory-traversal request carrying a (stub-accepted) bearer token. -/
def reqTraversal : Request :=
  { method := "GET", path := "/../etc/passwd", query := none,
    headers := [("authorization", "Bearer t")], peerAddr := none }

/-- A request whose header value contains `union select`. -/
def reqUnionHeader : Request :=
  { method := "GET", path := "/ok", query := none,
    headers := [("x-test", "union select"), ("authorization", "Bearer t")],
    peerAddr := none }

/-- Claim C1: a rejected rate-limit check must leave the rate-limit state
unchanged.  REFUTED in distributed mode: `check_redis_limit_static` runs
`ZADD` before counting, so with `requests_per_minute = 1` and window set
`{10, 20}` a request at `t = 30` is rejected, yet its timestamp 30 remains
recorded in the per-client window set after the check.  The local bucket
complies: at zero tokens the rejection leaves the bucket exactly as it
was. -/
theorem c1_rejected_request_consumes_slot :
    (check_redis_limit 1 30 [10, 20]).1 = false ∧
    (check_redis_limit 1 30 [10, 20]).2.contains (30 : Int) = true ∧
    check_local_limit 1 0 [("k", { tokens := 0, last_refill := 0 })] "k" =
      (false, [("k", { tokens := 0, last_refill := 0 })]) := by
  refine ⟨by decide, by decide, by decide⟩

/-- Claim C2: the composed pipeline must run the security checks first and
answer 400 to traversal paths / `union select` header values before the
Router is consulted.  REFUTED: `LinkerdGateway::serve` composes
Auth → RateLimit → Cache → GatewayService with NO security middleware, so
under the default configuration both malicious requests sail through to
`find_route` (which matches the default upstream) and receive the
upstream's 200 — even though a fresh `SecurityEnforcer` would have
rejected each with a 400-mapped violation. -/
theorem c2_pipeline_lacks_security_stage :
    (runPipeline GatewayConfig.default upstrOk 1000 "u" "ts"
      GatewayState.empty reqTraversal).1.status = 200 ∧
    find_route GatewayConfig.default.routing "/../etc/passwd" "GET" =
      some (defaultRouteFor "http://localhost:8081") ∧
    check_request SecurityPolicy.fresh reqTraversal =
      Except.error (SecurityError.MaliciousPath "/../etc/passwd") ∧
    securityStatus (SecurityError.MaliciousPath "/../etc/passwd") = 400 ∧
    (runPipeline GatewayConfig.default upstrOk 1000 "u" "ts"
      GatewayState.empty reqUnionHeader).1.status = 200 ∧
    check_request SecurityPolicy.fresh reqUnionHeader =
      Except.error (SecurityError.SuspiciousContent "union select") ∧
    securityStatus (SecurityError.SuspiciousContent "union select") = 400 :=
  ⟨by decide, by decide, rfl, rfl, by decide, rfl, rfl⟩

/-- A live cached entry whose stored (and served) etag is `"abc"`,
quotes included, as `store_in_cache_static` writes them. -/
def entryC3 : CacheEntry :=
  { body := "hello", headers := [], content_type := "text/plain",
    etag := "\"abc\"", timestamp := 0 }

/-- A plain cache-eligible request for `/x`. -/
def reqC3plain : Request :=
  { method := "GET", path := "/x", query := none, headers := [], peerAddr := none }

/-- The same request revalidating with exactly the ETag the cache served. -/
def reqC3inm : Request :=
  { method := "GET", path := "/x", query := none,
    headers := [("if-none-match", "\"abc\"")], peerAddr := none }

/-- The same request with the double-quoted string the code actually
compares against. -/
def reqC3weird : Request :=
  { method := "GET", path := "/x", query := none,
    headers := [("if-none-match", "\"\"abc\"\"")], peerAddr := none }

/-- Store state holding `entryC3` under the key of `/x`. -/
def stC3 : GatewayState :=
  { GatewayState.empty with
    cacheStore := [(generate_cache_key reqC3plain, entryC3)] }

/-- An inner service that would be visible if the cache missed. -/
def innerC3 : GatewayState → Request → Response × GatewayState :=
  fun st _ => ({ status := 500, headers := [], body := "inner" }, st)

/-- Claim C3: `If-None-Match` equal to the ETag the cache previously served
for a live entry must yield 304 with an empty body.  REFUTED: the cache-hit
response serves the stored etag `"abc"` verbatim, but the conditional
branch compares the request header against the stored etag re-wrapped in
quotes (`""abc""`), so echoing the served ETag returns the full 200 body;
only the nonsensical double-quoted string triggers 304.  The second half of
the claim holds: storing always assigns the fresh etag `"uuid"`. -/
theorem c3_served_etag_never_revalidates :
    getHeader (create_response_from_cache entryC3).headers "etag" = some "\"abc\"" ∧
    (cacheStage CacheConfig.default 10 "u2" stC3 reqC3inm innerC3).1 =
      { status := 200,
        headers := [("content-type", "text/plain"), ("etag", "\"abc\"")],
        body := "hello" } ∧
    (cacheStage CacheConfig.default 10 "u2" stC3 reqC3weird innerC3).1 =
      { status := 304, headers := [("etag", "\"\"abc\"\"")], body := "" } ∧
    (assocFind
      (store_in_cache CacheConfig.default 10 "fresh" "k"
        { status := 200, headers := [], body := "ok" } "ok" [])
      "k").map CacheEntry.etag = some "\"fresh\"" := by
  refine ⟨by decide, by decide, by decide, by decide⟩

/-- A protected-path request bearing a non-empty (invalid/expired) token. -/
def reqC5expired : Request :=
  { method := "GET", path := "/api/data", query := none,
    headers := [("authorization", "Bearer expired.token.value")], peerAddr := none }

/-- A public-path request with no Authorization header. -/
def reqC5health : Request :=
  { method := "GET", path := "/health", query := none, headers := [], peerAddr := none }

/-- A protected-path request with no token at all. -/
def reqC5bare : Request :=
  { method := "GET", path := "/api/data", query := none, headers := [], peerAddr := none }

/-- A protected-path request with an empty bearer token. -/
def reqC5empty : Request :=
  { method := "GET", path := "/api/data", query := none,
    headers := [("authorization", "Bearer ")], peerAddr := none }

/-- Claim C5: with auth enabled, public paths pass with no Authorization
header, and a missing, empty, invalid or expired bearer token on any other
path must yield 401 with no claims attached.  PARTLY REFUTED: public
bypass and the missing/empty cases hold, but `validate_jwt` is a TODO stub
that accepts ANY non-empty token — an expired or garbage bearer token is
accepted and fabricated claims (`X-User-ID: user`) are attached. -/
theorem c5_nonempty_invalid_token_accepted :
    authCheck AuthConfig.default reqC5expired =
      StageOut.forward
        { method := "GET", path := "/api/data", query := none,
          headers := [("authorization", "Bearer expired.token.value"),
                      ("x-user-id", "user"), ("x-user-roles", "user")],
          peerAddr := none } ∧
    authCheck AuthConfig.default reqC5health = StageOut.forward reqC5health ∧
    authCheck AuthConfig.default reqC5bare = StageOut.respond authRejection ∧
    authCheck AuthConfig.default reqC5empty = StageOut.respond authRejection ∧
    authRejection.status = 401 := by
  refine ⟨by decide, by decide, by decide, by decide, by decide⟩

/-- A routable request for the connection-counter claim. -/
def reqC7 : Request :=
  { method := "GET", path := "/a", query := none, headers := [], peerAddr := none }

/-- Claim C7: counters must be incremented immediately before dispatch and
decremented on completion, never going below zero.  REFUTED:
`route_request` never touches the per-upstream connection counters (no
caller of `increment_connection`/`decrement_connection` exists), so a
dispatched request leaves the counter at 0 throughout; moreover
`decrement_connection` on a zero counter wraps to `2^64 - 1`
(`AtomicUsize::fetch_sub`), not a clamped non-negative adjustment. -/
theorem c7_connection_counters_untouched :
    (∀ (cfg : RoutingConfig) (upstr : Request → Option Response)
      (uuid ts : String) (counts : List (String × Nat)) (req : Request),
      (route_request cfg upstr uuid ts counts req).2 = counts) ∧
    (route_request RoutingConfig.default upstrOk "u" "ts"
      [("http://localhost:8081", 0)] reqC7).1.status = 200 ∧
    decrement_connection [("http://localhost:8081", 0)] "http://localhost:8081" =
      [("http://localhost:8081", 2 ^ 64 - 1)] := by
  refine ⟨?_, by decide, by decide⟩
  intro cfg upstr uuid ts counts req
  unfold route_request
  cases find_route cfg req.path req.method with
  | none => rfl
  | some route =>
    dsimp only
    split <;> rfl

/-- Counterexample to claim C8 as stated: with `requests_per_minute = 5`,
six requests all inside one 60-second window (arrivals at 0,0,0,0,0 and
12 s) are ALL admitted — the continuous refill grants a token back after
12 s, so the 6th request within the window is not rejected. -/
theorem c8_sixth_request_within_window_admitted :
    runLocalSeq 5 "k" [0, 0, 0, 0, 0, 12] =
      [true, true, true, true, true, true] := by decide

/-- Local-mode rate-limit configuration with `requests_per_minute = 5`. -/
def cfgC8 : RateLimitConfig :=
  { enabled := true, requests_per_minute := 5, burst_limit := 100, redis_url := none }

/-- A request with only a peer address (client key `ip:1.2.3.4`). -/
def reqC8 : Request :=
  { method := "GET", path := "/a", query := none, headers := [],
    peerAddr := some "1.2.3.4" }

/-- Bucket state after five immediate admissions for `ip:1.2.3.4`. -/
def stC8 : GatewayState :=
  { GatewayState.empty with
    localBuckets := runLocalSeqState 5 "ip:1.2.3.4" [0, 0, 0, 0, 0] }

/-- Claim C8 as amended: with `requests_per_minute = 5` in local mode,
exactly the first 5 requests arriving before any refill accrues (here
simultaneously) are admitted; the 6th is rejected with 429 and
`Retry-After: 60`; the bucket refills continuously at 5 tokens per 60 s,
so admission resumes once the window elapses (a request at `t = 60` is
admitted) — but a 6th request arriving 12 s or more after the last refill
is admitted even within the same 60-second window. -/
theorem c8_local_bucket_boundary :
    runLocalSeq 5 "k" [0, 0, 0, 0, 0, 0, 60] =
      [true, true, true, true, true, false, true] ∧
    (rateLimitStage cfgC8 0 stC8 reqC8).1 =
      StageOut.respond (rateLimitRejection cfgC8) ∧
    (rateLimitRejection cfgC8).status = 429 ∧
    getHeader (rateLimitRejection cfgC8).headers "retry-after" = some "60" := by
  refine ⟨by decide, by decide, by decide, by decide⟩

/-- Claim C9: any request carrying an `Authorization` header is classified
non-cacheable, so no credentialed request is ever looked up in or stored to
the cache (the cache stage degenerates to its inner service), and although
`generate_cache_key` lists `Authorization` among its inputs, the key of
every request that actually reaches the cache is independent of it. -/
theorem c9_auth_requests_bypass_cache (req : Request) :
    (hasHeader req.headers "authorization" = true → is_cacheable req = false) ∧
    (is_cacheable req = true →
      generate_cache_key req = generate_cache_key_no_auth req) ∧
    (∀ (cfg : CacheConfig) (now : Nat) (uuid : String) (st : GatewayState)
      (inner : GatewayState → Request → Response × GatewayState),
      hasHeader req.headers "authorization" = true →
      cacheStage cfg now uuid st req inner = inner st req) := by
  have hic : hasHeader req.headers "authorization" = true → is_cacheable req = false := by
    intro h
    unfold is_cacheable
    rw [h]
    simp
  refine ⟨hic, ?_, ?_⟩
  · intro h
    have hh : getHeader req.headers "authorization" = none := by
      cases hg : getHeader req.headers "authorization" with
      | none => rfl
      | some v =>
        exfalso
        have hha : hasHeader req.headers "authorization" = true := by
          unfold hasHeader
          rw [hg]
          rfl
        rw [hic hha] at h
        exact Bool.false_ne_true h
    simp only [generate_cache_key, generate_cache_key_no_auth, hh]
  · intro cfg now uuid st inner h
    have hcond : (!cfg.enabled || !is_cacheable req) = true := by
      rw [hic h]
      simp
    unfold cacheStage
    rw [if_pos hcond]

/-- Witness for C9 at concrete requests: a credentialed request is not
cacheable and passes the cache stage straight to the inner service; a
cacheable request's key equals the Authorization-free key. -/
theorem c9_auth_requests_bypass_cache_witness :
    is_cacheable reqC5expired = false ∧
    generate_cache_key reqC3plain = generate_cache_key_no_auth reqC3plain ∧
    cacheStage CacheConfig.default 0 "u" GatewayState.empty reqC5expired innerC3 =
      innerC3 GatewayState.empty reqC5expired :=
  ⟨(c9_auth_requests_bypass_cache reqC5expired).1 (by decide),
   (c9_auth_requests_bypass_cache reqC3plain).2.1 (by decide),
   (c9_auth_requests_bypass_cache reqC5expired).2.2 CacheConfig.default 0 "u"
     GatewayState.empty innerC3 (by decide)⟩

/-- Claim C10: the rate limiter's client key is `user:` + the client-settable
`X-User-ID` header when present, else `ip:` + the peer address, else the
literal `unknown`; hence all requests lacking both identifiers share one
bucket (their keys coincide). -/
theorem c10_client_key_derivation (req : Request) :
    (∀ v, getHeader req.headers "x-user-id" = some v →
      get_client_key req = "user:" ++ v) ∧
    (∀ a, getHeader req.headers "x-user-id" = none → req.peerAddr = some a →
      get_client_key req = "ip:" ++ a) ∧
    (getHeader req.headers "x-user-id" = none → req.peerAddr = none →
      get_client_key req = "unknown") ∧
    (∀ req₂, getHeader req.headers "x-user-id" = none → req.peerAddr = none →
      getHeader req₂.headers "x-user-id" = none → req₂.peerAddr = none →
      get_client_key req = get_client_key req₂) := by
  refine ⟨?_, ?_, ?_, ?_⟩
  · intro v hv
    unfold get_client_key
    rw [hv]
  · intro a hu hp
    unfold get_client_key
    rw [hu, hp]
  · intro hu hp
    unfold get_client_key
    rw [hu, hp]
  · intro req₂ hu hp hu2 hp2
    unfold get_client_key
    rw [hu, hp, hu2, hp2]

/-- A request identified only by the `X-User-ID` header. -/
def reqC10u : Request :=
  { method := "GET", path := "/", query := none,
    headers := [("x-user-id", "alice")], peerAddr := some "9.9.9.9" }

/-- A request identified only by its peer address. -/
def reqC10ip : Request :=
  { method := "GET", path := "/", query := none, headers := [],
    peerAddr := some "9.9.9.9" }

/-- A request with neither identifier. -/
def reqC10bare : Request :=
  { method := "GET", path := "/", query := none, headers := [], peerAddr := none }

/-- A very different request, also with neither identifier. -/
def reqC10bare2 : Request :=
  { method := "POST", path := "/other", query := some "q=1",
    headers := [("accept", "text/html")], peerAddr := none }

/-- Witness for C10 at concrete requests, including two distinct
identifier-less requests landing in the same `unknown` bucket. -/
theorem c10_client_key_derivation_witness :
    get_client_key reqC10u = "user:alice" ∧
    get_client_key reqC10ip = "ip:9.9.9.9" ∧
    get_client_key reqC10bare = "unknown" ∧
    get_client_key reqC10bare = get_client_key reqC10bare2 :=
  ⟨(c10_client_key_derivation reqC10u).1 "alice" (by decide),
   (c10_client_key_derivation reqC10ip).2.1 "9.9.9.9" (by decide) rfl,
   (c10_client_key_derivation reqC10bare).2.2.1 (by decide) rfl,
   (c10_client_key_derivation reqC10bare).2.2.2 reqC10bare2 (by decide) rfl
     (by decide) rfl⟩

end Gateway
